import Mathlib

/-
Verification of the braviaproapi client library: a shallow embedding of
braviaclient.py, audio.py and system.py. Device communication is modelled by
oracle parameters: each operation takes the outcome of its HTTP request
(`Except HttpErr JValue`), and the client's one-time compatibility gate takes
the outcome of fetching interface information. Python exceptions are modelled
by the `PyError` type and `Except PyError` results.
-/

/-- JSON-like values exchanged with the device, and Python values derived from
them (dictionaries are association lists in response order). -/
inductive JValue where
  | null
  | bool (b : Bool)
  | int (n : Int)
  | str (s : String)
  | list (items : List JValue)
  | obj (fields : List (String × JValue))

/-- Modelled from the spec: the typed error hierarchy of the missing errors
module ("transport/HTTP error", "device-reported API error", "unexpected
response shape"), together with the Python built-in exceptions the interpreter
itself raises. `httpError` is the transport-layer HttpError carrying the
device's error code; `apiError`, `braviaApiError` and `braviaInternalError`
are the library's own error classes; `invalidVersion` stands for the packaging
module's InvalidVersion. -/
inductive PyError where
  | typeError (msg : String)
  | valueError (msg : String)
  | keyError (key : String)
  | indexError
  | attributeError
  | httpError (error_code : Int) (msg : String)
  | apiError (msg : String)
  | braviaApiError (msg : String)
  | braviaInternalError (msg : String)
  | invalidVersion (s : String)
deriving DecidableEq

/-- The transport-layer HttpError raised by the http client: the device's
error code and a message. -/
structure HttpErr where
  error_code : Int
  msg : String
deriving DecidableEq

/-- Python equality of a response value against a string literal. -/
def jEqStr (v : JValue) (s : String) : Bool :=
  match v with
  | .str t => t == s
  | _ => false

/-- Python len() on a response value. -/
def pyLen (v : JValue) : Except PyError Nat :=
  match v with
  | .list items => .ok items.length
  | .obj fields => .ok fields.length
  | .str s => .ok s.length
  | _ => .error (.typeError "object has no len")

/-- Python subscript with a string key: valid on dictionaries only. -/
def pyGetItemStr (v : JValue) (k : String) : Except PyError JValue :=
  match v with
  | .obj fields =>
      match fields.lookup k with
      | some x => .ok x
      | none => .error (.keyError k)
  | .list _ => .error (.typeError "list indices must be integers or slices, not str")
  | .str _ => .error (.typeError "string indices must be integers")
  | _ => .error (.typeError "object is not subscriptable")

/-- Python subscript with a non-negative integer index. -/
def pyGetItemNat (v : JValue) (i : Nat) : Except PyError JValue :=
  match v with
  | .list items =>
      match items.get? i with
      | some x => .ok x
      | none => .error .indexError
  | .obj _ => .error (.keyError (toString i))
  | .str s =>
      match s.data.get? i with
      | some c => .ok (.str (String.mk [c]))
      | none => .error .indexError
  | _ => .error (.typeError "object is not subscriptable")

/-- Python dict.get(k): the value, or None when the key is absent; raises
AttributeError on a value that is not a dictionary. -/
def pyDictGet (v : JValue) (k : String) : Except PyError JValue :=
  match v with
  | .obj fields => .ok ((fields.lookup k).getD .null)
  | _ => .error .attributeError

/-- Python `k in v` membership test for a string. -/
def pyContains (v : JValue) (k : String) : Except PyError Bool :=
  match v with
  | .obj fields => .ok (fields.any (fun p => p.fst == k))
  | .list items => .ok (items.any (fun x => jEqStr x k))
  | .str s => .ok ((s.splitOn k).length > 1)
  | _ => .error (.typeError "argument is not iterable")

/-- Python truthiness of a response value. -/
def pyTruthy (v : JValue) : Bool :=
  match v with
  | .null => false
  | .bool b => b
  | .int n => n != 0
  | .str s => !s.isEmpty
  | .list items => !items.isEmpty
  | .obj fields => !fields.isEmpty

/-- Python str() of a response value, as used in formatted error messages
(container values abbreviated; they never reach a message in the claims). -/
def pyFormat (v : JValue) : String :=
  match v with
  | .null => "None"
  | .bool true => "True"
  | .bool false => "False"
  | .int n => toString n
  | .str s => s
  | .list _ => "[...]"
  | .obj _ => "dict"

/-- Modelled from the spec: the helper of the missing util module; yields the
value itself unless it is None or empty, in which case it yields None. -/
def coalesce_none_or_empty (v : JValue) : JValue :=
  match v with
  | .null => .null
  | .str s => if s.isEmpty then .null else .str s
  | .list items => if items.isEmpty then .null else .list items
  | .obj fields => if fields.isEmpty then .null else .obj fields
  | x => x

/-- Modelled from the spec: the missing errors module's message for a
device-reported API error (the code and the transport message). -/
def get_error_message (error_code : Int) (msg : String) : String :=
  "API error " ++ toString error_code ++ ": " ++ msg

/-- Modelled from the spec: the missing errors module's ApiErrors codes, as
fixed by the ErrorCode table of audio.py. -/
def ApiErrors.ILLEGAL_ARGUMENT : Int := 3

/-- Modelled from the spec: the ILLEGAL_STATE code of the missing errors
module, as fixed by the ErrorCode table of audio.py. -/
def ApiErrors.ILLEGAL_STATE : Int := 7

/-- Error code table of audio.py. -/
def ErrorCode.ILLEGAL_ARGUMENT : Int := 3

/-- Error code table of audio.py. -/
def ErrorCode.ILLEGAL_STATE : Int := 7

/-- Error code table of audio.py. -/
def ErrorCode.TARGET_NOT_SUPPORTED : Int := 40800

/-- Error code table of audio.py. -/
def ErrorCode.VOLUME_OUT_OF_RANGE : Int := 40801

/-- Numeric value of a decimal digit string. -/
def decimalValue (s : String) : Nat :=
  s.data.foldl (fun a c => 10 * a + (c.toNat - 48)) 0

/-- A non-empty all-digit version component. -/
def isNumeric (s : String) : Bool :=
  !s.isEmpty && s.data.all Char.isDigit

/-- Splitting a character list on dots (the behavior of splitting a version
string on the separator, with empty pieces kept). -/
def splitDots : List Char → List (List Char)
  | [] => [[]]
  | c :: cs =>
      if c = '.' then [] :: splitDots cs
      else
        match splitDots cs with
        | [] => [[c]]
        | p :: ps => (c :: p) :: ps

/-- The packaging module's version.parse restricted to plain release
versions: dot-separated decimal components. Anything else raises
InvalidVersion and is modelled as parse failure. -/
def parseVersion (s : String) : Option (List Nat) :=
  let parts := (splitDots s.data).map String.mk
  if parts.all isNumeric then some (parts.map decimalValue) else none

/-- Release tuples compare with trailing zero components stripped, as the
packaging module does. -/
def stripZeros (l : List Nat) : List Nat :=
  (l.reverse.dropWhile (· = 0)).reverse

/-- Lexicographic order on release tuples. -/
def lexLt : List Nat → List Nat → Bool
  | [], [] => false
  | [], _ :: _ => true
  | _ :: _, [] => false
  | a :: as, b :: bs => a < b || (a == b && lexLt as bs)

/-- Strict order on parsed versions. -/
def verLt (a b : List Nat) : Bool :=
  lexLt (stripZeros a) (stripZeros b)

/-- Non-strict reverse order on parsed versions. -/
def verGe (a b : List Nat) : Bool :=
  !verLt a b

/-- The client state: `inited` models the private one-shot flag
(`__initialized`) of BraviaClient. -/
structure ClientState where
  inited : Bool
deriving DecidableEq

/-- The dictionary produced by System.get_interface_information, with each
entry already passed through coalesce_none_or_empty. -/
structure InterfaceInfo where
  product_category : JValue
  product_name : JValue
  model_name : JValue
  server_name : JValue
  interface_version : JValue

/-- The body of BraviaClient.initialize with the call to
System.get_interface_information abstracted as the oracle `fetch`. This is
the fast-path abstraction the operation embeddings use: its faithful part is
the initialized branch (the source's early return), the only branch the
operations' claims exercise. The uninitialized branch is unreachable in the
program: get_interface_information re-enters the gate before any request
while the flag is still unset, so a fresh client's gate diverges — the
faithful fuel-indexed model below (initF, getIfaceF) exhibits this. The
result pairs the new client state (or the exception) with the number of
interface fetches this call performed. -/
def BraviaClient.init (st : ClientState) (fetch : Except PyError InterfaceInfo) :
    Except PyError ClientState × Nat :=
  if st.inited then (.ok st, 0)
  else
    match fetch with
    | .error (.httpError _ m) =>
        (.error (.apiError ("Unable to verify API version compatibility due to an API error: " ++ m)), 1)
    | .error e => (.error e, 1)
    | .ok info =>
        match info.interface_version with
        | .null =>
            (.error (.apiError "Unable to verify API version compatibility because the device did not indicate its API version."), 1)
        | .str s =>
            match parseVersion s with
            | none => (.error (.invalidVersion s), 1)
            | some v =>
                if verGe v [4, 0, 0] || verLt v [3, 0, 0] then
                  (.error (.apiError ("The target device is running an incompatible API version '" ++ s ++ "'")), 1)
                else
                  (.ok { st with inited := true }, 1)
        | _ => (.error (.typeError "expected str or bytes for version parsing"), 1)

/-- The initialization preamble shared by every public operation: run the
gate, propagate its exception, otherwise run the operation's body. -/
def withClient (st : ClientState) (fetch : Except PyError InterfaceInfo)
    (body : Except PyError α) : Except PyError α :=
  match (BraviaClient.init st fetch).fst with
  | .error e => .error e
  | .ok _ => body

mutual

/-- BraviaClient.initialize as the source writes it: it calls
System.get_interface_information, which re-enters the gate. The fuel models
Python's recursion limit; `none` means the call is still recursing when the
fuel runs out (the program raises RecursionError). `r` is the outcome the
getInterfaceInformation request would have if it were ever sent. -/
def initF : Nat → ClientState → Except HttpErr JValue → Option (Except PyError ClientState)
  | 0, _, _ => none
  | fuel + 1, st, r =>
      if st.inited then some (.ok st)
      else
        match getIfaceF fuel st r with
        | none => none
        | some (.error (.httpError _ m)) =>
            some (.error (.apiError
              ("Unable to verify API version compatibility due to an API error: " ++ m)))
        | some (.error e) => some (.error e)
        | some (.ok info) =>
            match info.interface_version with
            | .null =>
                some (.error (.apiError
                  "Unable to verify API version compatibility because the device did not indicate its API version."))
            | .str s =>
                match parseVersion s with
                | none => some (.error (.invalidVersion s))
                | some v =>
                    if verGe v [4, 0, 0] || verLt v [3, 0, 0] then
                      some (.error (.apiError
                        ("The target device is running an incompatible API version '" ++ s ++ "'")))
                    else some (.ok { st with inited := true })
            | _ => some (.error (.typeError "expected str or bytes for version parsing"))

/-- System.get_interface_information as the source writes it: its first
statement calls the client gate back, before any request. -/
def getIfaceF : Nat → ClientState → Except HttpErr JValue → Option (Except PyError InterfaceInfo)
  | 0, _, _ => none
  | fuel + 1, st, r =>
      match initF fuel st r with
      | none => none
      | some (.error e) => some (.error e)
      | some (.ok _) =>
          match r with
          | .error err => some (.error (.braviaApiError (get_error_message err.error_code err.msg)))
          | .ok resp =>
              match pyDictGet resp "productCategory", pyDictGet resp "productName",
                    pyDictGet resp "modelName", pyDictGet resp "serverName",
                    pyDictGet resp "interfaceVersion" with
              | .ok pc, .ok pn, .ok mn, .ok sn, .ok iv =>
                  some (.ok { product_category := coalesce_none_or_empty pc,
                              product_name := coalesce_none_or_empty pn,
                              model_name := coalesce_none_or_empty mn,
                              server_name := coalesce_none_or_empty sn,
                              interface_version := coalesce_none_or_empty iv })
              | .error e, _, _, _, _ => some (.error e)
              | _, .error e, _, _, _ => some (.error e)
              | _, _, .error e, _, _ => some (.error e)
              | _, _, _, .error e, _ => some (.error e)
              | _, _, _, _, .error e => some (.error e)

end

/-- Audio output enumeration of audio.py. -/
inductive AudioOutputs where
  | UNKNOWN
  | SPEAKER
  | SPEAKER_HDMI
  | HDMI
  | AUDIO_SYSTEM
deriving DecidableEq

/-- Volume device enumeration of audio.py. -/
inductive VolumeDevice where
  | UNKNOWN
  | SPEAKERS
  | HEADPHONES
deriving DecidableEq

/-- The output_modes translation table of Audio.get_sound_settings, with the
dictionary default AudioOutputs.UNKNOWN. -/
def output_modes (v : JValue) : AudioOutputs :=
  match v with
  | .str "speaker" => .SPEAKER
  | .str "speaker_hdmi" => .SPEAKER_HDMI
  | .str "hdmi" => .HDMI
  | .str "audioSystem" => .AUDIO_SYSTEM
  | _ => .UNKNOWN

/-- The valid_devices translation table of Audio.get_volume_information:
absent keys yield None. -/
def valid_devices (v : JValue) : Option VolumeDevice :=
  match v with
  | .str "speaker" => some .SPEAKERS
  | .str "headphone" => some .HEADPHONES
  | _ => none

/-- The dictionary Audio.get_sound_settings returns. -/
structure SoundSettings where
  name : JValue
  output : AudioOutputs

/-- The per-device dictionary Audio.get_volume_information returns. -/
structure VolumeInfo where
  type : VolumeDevice
  volume : JValue
  muted : Bool
  min_volume : JValue
  max_volume : JValue

/-- Audio.get_sound_settings. `r` is the outcome of the getSoundSettings
request; the second component counts the interface fetches of the
initialization preamble. -/
def Audio.get_sound_settings (st : ClientState) (fetch : Except PyError InterfaceInfo)
    (r : Except HttpErr JValue) : Except PyError (Option SoundSettings) × Nat :=
  (match (BraviaClient.init st fetch).fst with
   | .error e => .error e
   | .ok _ =>
     match r with
     | .error err =>
         if err.error_code == ErrorCode.ILLEGAL_ARGUMENT then .ok none
         else .error (.braviaApiError ("An unexpected error occurred: " ++ err.msg))
     | .ok resp =>
         match resp with
         | .list items =>
             if items.length > 1 then
               .error (.braviaApiError "API returned unexpected response format for getSoundSettings")
             else
               match items.get? 0 with
               | none => .error .indexError
               | some output_terminal =>
                   match pyDictGet output_terminal "currentValue" with
                   | .error e => .error e
                   | .ok cv =>
                       match output_modes cv with
                       | .UNKNOWN =>
                           .error (.braviaApiError ("API returned unexpected audio output '" ++ pyFormat cv ++ "'"))
                       | current_output =>
                           match pyDictGet output_terminal "target" with
                           | .error e => .error e
                           | .ok tgt =>
                               .ok (some { name := coalesce_none_or_empty tgt, output := current_output })
         | _ => .error (.braviaApiError "API returned unexpected response format for getSoundSettings"),
   (BraviaClient.init st fetch).snd)

/-- One pass of the device loop of Audio.get_volume_information: entries whose
target is not in the translation table are skipped. -/
def volumeInfoStep (acc : List VolumeInfo) (d : JValue) : Except PyError (List VolumeInfo) :=
  match pyDictGet d "target" with
  | .error e => .error e
  | .ok tgt =>
      match valid_devices tgt with
      | none => .ok acc
      | some device_type =>
          match pyDictGet d "volume", pyDictGet d "mute",
                pyDictGet d "minVolume", pyDictGet d "maxVolume" with
          | .ok vol, .ok mute, .ok mn, .ok mx =>
              .ok (acc ++ [{ type := device_type, volume := vol, muted := pyTruthy mute,
                             min_volume := mn, max_volume := mx }])
          | .error e, _, _, _ => .error e
          | _, .error e, _, _ => .error e
          | _, _, .error e, _ => .error e
          | _, _, _, .error e => .error e

/-- Audio.get_volume_information. The operation has no try/except: a
transport error propagates as the raw HttpError. -/
def Audio.get_volume_information (st : ClientState) (fetch : Except PyError InterfaceInfo)
    (r : Except HttpErr JValue) : Except PyError (List VolumeInfo) :=
  withClient st fetch
    (match r with
     | .error err => .error (.httpError err.error_code err.msg)
     | .ok resp =>
         match resp with
         | .list items => items.foldlM volumeInfoStep []
         | _ => .error (.braviaApiError "API returned unexpected response format for getVolumeInformation."))

/-- A Python argument value as passed to a library method: None, a bool, an
int, a str, a VolumeDevice member, or a value of any other type. -/
inductive PyVal where
  | none
  | bool (b : Bool)
  | int (n : Int)
  | str (s : String)
  | device (d : VolumeDevice)
  | other
deriving DecidableEq

/-- Whether the argument is a VolumeDevice member. -/
def PyVal.isDevice : PyVal → Bool
  | .device _ => true
  | _ => false

/-- Whether the argument is an int. -/
def PyVal.isInt : PyVal → Bool
  | .int _ => true
  | _ => false

/-- Whether the argument is a str. -/
def PyVal.isStr : PyVal → Bool
  | .str _ => true
  | _ => false

/-- Whether the argument is a bool. -/
def PyVal.isBool : PyVal → Bool
  | .bool _ => true
  | _ => false

/-- Python truthiness of an argument value. -/
def pyValTruthy : PyVal → Bool
  | .none => false
  | .bool b => b
  | .int n => n != 0
  | .str s => !s.isEmpty
  | .device _ => true
  | .other => true

/-- Python str() of an argument value. -/
def pyStr (v : PyVal) : String :=
  match v with
  | .int n => toString n
  | .str s => s
  | .bool true => "True"
  | .bool false => "False"
  | .none => "None"
  | .device _ => "VolumeDevice"
  | .other => "object"

/-- The ranges of Unicode category Nd (decimal digits), as of Unicode 15.0:
the class the re module's \d denotes for str patterns (the exact table tracks
the interpreter's Unicode version). -/
def ndRanges : List (Nat × Nat) :=
  [(0x30, 0x39), (0x660, 0x669), (0x6F0, 0x6F9), (0x7C0, 0x7C9),
   (0x966, 0x96F), (0x9E6, 0x9EF), (0xA66, 0xA6F), (0xAE6, 0xAEF),
   (0xB66, 0xB6F), (0xBE6, 0xBEF), (0xC66, 0xC6F), (0xCE6, 0xCEF),
   (0xD66, 0xD6F), (0xDE6, 0xDEF), (0xE50, 0xE59), (0xED0, 0xED9),
   (0xF20, 0xF29), (0x1040, 0x1049), (0x1090, 0x1099), (0x17E0, 0x17E9),
   (0x1810, 0x1819), (0x1946, 0x194F), (0x19D0, 0x19D9), (0x1A80, 0x1A89),
   (0x1A90, 0x1A99), (0x1B50, 0x1B59), (0x1BB0, 0x1BB9), (0x1C40, 0x1C49),
   (0x1C50, 0x1C59), (0xA620, 0xA629), (0xA8D0, 0xA8D9), (0xA900, 0xA909),
   (0xA9D0, 0xA9D9), (0xA9F0, 0xA9F9), (0xAA50, 0xAA59), (0xABF0, 0xABF9),
   (0xFF10, 0xFF19), (0x104A0, 0x104A9), (0x10D30, 0x10D39),
   (0x11066, 0x1106F), (0x110F0, 0x110F9), (0x11136, 0x1113F),
   (0x111D0, 0x111D9), (0x112F0, 0x112F9), (0x11450, 0x11459),
   (0x114D0, 0x114D9), (0x11650, 0x11659), (0x116C0, 0x116C9),
   (0x11730, 0x11739), (0x118E0, 0x118E9), (0x11950, 0x11959),
   (0x11C50, 0x11C59), (0x11D50, 0x11D59), (0x11DA0, 0x11DA9),
   (0x11F50, 0x11F59), (0x16A60, 0x16A69), (0x16AC0, 0x16AC9),
   (0x16B50, 0x16B59), (0x1D7CE, 0x1D7FF), (0x1E140, 0x1E149),
   (0x1E2F0, 0x1E2F9), (0x1E4F0, 0x1E4F9), (0x1E950, 0x1E959),
   (0x1FBF0, 0x1FBF9)]

/-- The re module's \d class for str patterns: any Unicode decimal digit. -/
def pyIsDigit (c : Char) : Bool :=
  ndRanges.any (fun r => r.fst ≤ c.toNat && c.toNat ≤ r.snd)

/-- One trailing newline removed, if present: the positions where the re
anchor $ holds are the end of the string and just before such a newline. -/
def stripTrailingNewline (l : List Char) : List Char :=
  if l.getLast? = some '\n' then l.dropLast else l

/-- The regular expression check of Audio.set_volume,
re.match of the pattern sign-digits-end: a sign character, then one or more
\d characters (Unicode Nd), reaching a position where $ holds (the end of the
string, or just before one trailing newline). -/
def volFormatOk (s : String) : Bool :=
  match s.data with
  | [] => false
  | c :: rest =>
      (c == '+' || c == '-') &&
        (!(stripTrailingNewline rest).isEmpty &&
          (stripTrailingNewline rest).all pyIsDigit)

/-- The parameter dictionary of a setAudioVolume request. -/
structure SetVolumeParams where
  target : String
  volume : String
  ui : String
deriving DecidableEq

/-- Outcome of a volume-setting call: the raised exception or normal return,
and the setAudioVolume request the call sent, if it reached the send. -/
structure SetVolumeOutcome where
  result : Except PyError Unit
  sent : Option SetVolumeParams

/-- Audio.set_volume: argument validation, serialization and the request.
`r` is the outcome of the setAudioVolume request when one is sent. -/
def Audio.set_volume (st : ClientState) (fetch : Except PyError InterfaceInfo)
    (volume show_ui device : PyVal) (r : Except HttpErr JValue) : SetVolumeOutcome :=
  match (BraviaClient.init st fetch).fst with
  | .error e => { result := .error e, sent := none }
  | .ok _ =>
    if !(device == PyVal.none) && !device.isDevice then
      { result := .error (.typeError "device must be a VolumeDevice enum type or None"), sent := none }
    else if device == PyVal.device .UNKNOWN then
      { result := .error (.valueError "device cannot be VolumeDevice.UNKNOWN"), sent := none }
    else if !volume.isInt && !volume.isStr then
      { result := .error (.typeError "volume must be an int or string"), sent := none }
    else if (match volume with | .str s => !volFormatOk s | _ => false) then
      { result := .error (.valueError "volume must be in the format 1, +1, or -1"), sent := none }
    else if !show_ui.isBool then
      { result := .error (.typeError "show_ui must be a boolean value"), sent := none }
    else
      match (match device with
             | .none => Except.ok ""
             | .device .SPEAKERS => Except.ok "speaker"
             | .device .HEADPHONES => Except.ok "headphone"
             | _ => Except.error (PyError.braviaApiError "Internal error: Invalid VolumeDevice specified")) with
      | .error e => { result := .error e, sent := none }
      | .ok target =>
          let params : SetVolumeParams :=
            { target := target, volume := pyStr volume,
              ui := if pyValTruthy show_ui then "on" else "off" }
          match r with
          | .ok _ => { result := .ok (), sent := some params }
          | .error err =>
              { sent := some params,
                result :=
                  if err.error_code == ErrorCode.TARGET_NOT_SUPPORTED then
                    .error (.braviaApiError "The target device does not support controlling volume of the specified output.")
                  else if err.error_code == ErrorCode.VOLUME_OUT_OF_RANGE then
                    .error (.braviaApiError "The specified volume value is out of range for the target device.")
                  else
                    .error (.braviaApiError ("An unexpected error occurred: " ++ err.msg)) }

/-- Audio.increase_volume: type check, then set_volume with the relative
string built as a plus sign glued to str(increase_by). -/
def Audio.increase_volume (st : ClientState) (fetch : Except PyError InterfaceInfo)
    (increase_by show_ui device : PyVal) (r : Except HttpErr JValue) : SetVolumeOutcome :=
  if !increase_by.isInt then
    { result := .error (.typeError "increase_by must be an integer value"), sent := none }
  else
    Audio.set_volume st fetch (.str ("+" ++ pyStr increase_by)) show_ui device r

/-- Audio.decrease_volume: type check, then set_volume with the relative
string built as a minus sign glued to str(decrease_by). -/
def Audio.decrease_volume (st : ClientState) (fetch : Except PyError InterfaceInfo)
    (decrease_by show_ui device : PyVal) (r : Except HttpErr JValue) : SetVolumeOutcome :=
  if !decrease_by.isInt then
    { result := .error (.typeError "decrease_by must be an integer value"), sent := none }
  else
    Audio.set_volume st fetch (.str ("-" ++ pyStr decrease_by)) show_ui device r

/-- LED mode enumeration of system.py. -/
inductive LedMode where
  | UNKNOWN
  | DEMO
  | AUTO_BRIGHTNESS
  | DARK
  | SIMPLE_RESPONSE
  | OFF
deriving DecidableEq

/-- The valid_modes translation table of System.get_led_status, with the
dictionary default LedMode.UNKNOWN. -/
def valid_modes (v : JValue) : LedMode :=
  match v with
  | .str "Demo" => .DEMO
  | .str "AutoBrightnessAdjust" => .AUTO_BRIGHTNESS
  | .str "Dark" => .DARK
  | .str "SimpleResponse" => .SIMPLE_RESPONSE
  | .str "Off" => .OFF
  | _ => .UNKNOWN

/-- The dictionary System.get_led_status returns. -/
structure LedStatus where
  status : Option Bool
  mode : Option LedMode
deriving DecidableEq

/-- System.get_interface_information: builds the interface dictionary, every
entry coalesced. `fetch` is the oracle for the initialization preamble's own
interface fetch. -/
def System.get_interface_information (st : ClientState)
    (fetch : Except PyError InterfaceInfo) (r : Except HttpErr JValue) :
    Except PyError InterfaceInfo :=
  withClient st fetch
    (match r with
     | .error err => .error (.braviaApiError (get_error_message err.error_code err.msg))
     | .ok resp =>
         match pyDictGet resp "productCategory", pyDictGet resp "productName",
               pyDictGet resp "modelName", pyDictGet resp "serverName",
               pyDictGet resp "interfaceVersion" with
         | .ok pc, .ok pn, .ok mn, .ok sn, .ok iv =>
             .ok { product_category := coalesce_none_or_empty pc,
                   product_name := coalesce_none_or_empty pn,
                   model_name := coalesce_none_or_empty mn,
                   server_name := coalesce_none_or_empty sn,
                   interface_version := coalesce_none_or_empty iv }
         | .error e, _, _, _, _ => .error e
         | _, .error e, _, _, _ => .error e
         | _, _, .error e, _, _ => .error e
         | _, _, _, .error e, _ => .error e
         | _, _, _, _, .error e => .error e)

/-- System.set_power_status: type check and the setPowerStatus request. -/
def System.set_power_status (st : ClientState) (fetch : Except PyError InterfaceInfo)
    (power_state : PyVal) (r : Except HttpErr JValue) : Except PyError Unit :=
  withClient st fetch
    (if !power_state.isBool then .error (.typeError "power_state must be a boolean type")
     else
       match r with
       | .ok _ => .ok ()
       | .error err => .error (.braviaApiError (get_error_message err.error_code err.msg)))

/-- System.get_power_status: maps the reported status string to a boolean. -/
def System.get_power_status (st : ClientState) (fetch : Except PyError InterfaceInfo)
    (r : Except HttpErr JValue) : Except PyError Bool :=
  withClient st fetch
    (match r with
     | .error err => .error (.braviaApiError (get_error_message err.error_code err.msg))
     | .ok resp =>
         match pyGetItemStr resp "status" with
         | .error e => .error e
         | .ok s =>
             if jEqStr s "standby" then .ok false
             else if jEqStr s "active" then .ok true
             else .error (.braviaApiError ("Unexpected getPowerStatus response '" ++ pyFormat s ++ "'")))

/-- System.get_current_time. The dateutil parse of the dateTime string is
abstracted: a parsed datetime is represented by its source string (dateutil is
third-party; its failures are outside the claims). An ILLEGAL_STATE error
from the device means the clock is unset and yields None. -/
def System.get_current_time (st : ClientState) (fetch : Except PyError InterfaceInfo)
    (r : Except HttpErr JValue) : Except PyError (Option String) :=
  withClient st fetch
    (match r with
     | .ok resp =>
         match pyGetItemStr resp "dateTime" with
         | .error e => .error e
         | .ok v =>
             match v with
             | .str s => .ok (some s)
             | _ => .error (.typeError "Parser must be a string or character stream")
     | .error err =>
         if err.error_code == ApiErrors.ILLEGAL_STATE then .ok none
         else .error (.braviaApiError (get_error_message err.error_code err.msg)))

/-- System.get_led_status: reads the optional status and mode entries,
raising on a mode outside the translation table. -/
def System.get_led_status (st : ClientState) (fetch : Except PyError InterfaceInfo)
    (r : Except HttpErr JValue) : Except PyError LedStatus :=
  withClient st fetch
    (match r with
     | .error err => .error (.braviaApiError (get_error_message err.error_code err.msg))
     | .ok resp =>
         match pyContains resp "status" with
         | .error e => .error e
         | .ok hasStatus =>
             match (if hasStatus then
                      match pyGetItemStr resp "status" with
                      | .error e => Except.error e
                      | .ok sv =>
                          Except.ok (if jEqStr sv "true" then some true
                                     else if jEqStr sv "false" then some false
                                     else none)
                    else Except.ok none) with
             | .error e => .error e
             | .ok led_status =>
                 match pyContains resp "mode" with
                 | .error e => .error e
                 | .ok hasMode =>
                     if hasMode then
                       match pyDictGet resp "mode" with
                       | .error e => .error e
                       | .ok mv =>
                           match valid_modes mv with
                           | .UNKNOWN =>
                               .error (.braviaApiError ("API returned unexpected LED mode '" ++ pyFormat mv ++ "'"))
                           | led_mode => .ok { status := led_status, mode := some led_mode }
                     else .ok { status := led_status, mode := none })

/-- The per-interface dictionary System.get_network_settings builds. -/
structure IfaceInfo where
  name : JValue
  mac : JValue
  ip_v4 : JValue
  ip_v6 : JValue
  netmask : JValue
  gateway : JValue
  dns_servers : JValue

/-- One pass of the interface loop of System.get_network_settings. -/
def parseIface (v : JValue) : Except PyError IfaceInfo :=
  match pyDictGet v "netif", pyDictGet v "hwAddr", pyDictGet v "ipAddrV4",
        pyDictGet v "ipAddrV6", pyDictGet v "netmask", pyDictGet v "gateway",
        pyDictGet v "dns" with
  | .ok nm, .ok hw, .ok v4, .ok v6, .ok nmask, .ok gw, .ok dns =>
      .ok { name := coalesce_none_or_empty nm, mac := coalesce_none_or_empty hw,
            ip_v4 := coalesce_none_or_empty v4, ip_v6 := coalesce_none_or_empty v6,
            netmask := coalesce_none_or_empty nmask, gateway := coalesce_none_or_empty gw,
            dns_servers := coalesce_none_or_empty dns }
  | .error e, _, _, _, _, _, _ => .error e
  | _, .error e, _, _, _, _, _ => .error e
  | _, _, .error e, _, _, _, _ => .error e
  | _, _, _, .error e, _, _, _ => .error e
  | _, _, _, _, .error e, _, _ => .error e
  | _, _, _, _, _, .error e, _ => .error e
  | _, _, _, _, _, _, .error e => .error e

/-- Result of System.get_network_settings: the single requested interface, or
the list of all of them. -/
inductive NetResult where
  | single (i : IfaceInfo)
  | multiple (l : List IfaceInfo)

/-- System.get_network_settings. An ILLEGAL_ARGUMENT error means the
requested interface does not exist and yields None; with a non-None
`interface` argument the first element of the parsed list is returned. -/
def System.get_network_settings (st : ClientState) (fetch : Except PyError InterfaceInfo)
    (interface : PyVal) (r : Except HttpErr JValue) : Except PyError (Option NetResult) :=
  withClient st fetch
    (let request_interface := if pyValTruthy interface then interface else PyVal.str ""
     if !request_interface.isStr then .error (.typeError "interface argument must be a string")
     else
       match r with
       | .error err =>
           if err.error_code == ApiErrors.ILLEGAL_ARGUMENT then .ok none
           else .error (.braviaApiError (get_error_message err.error_code err.msg))
       | .ok resp =>
           match resp with
           | .list items =>
               match items.mapM parseIface with
               | .error e => .error e
               | .ok network_interfaces =>
                   if !(interface == PyVal.none) then
                     match network_interfaces.get? 0 with
                     | some first => .ok (some (.single first))
                     | none => .error .indexError
                   else .ok (some (.multiple network_interfaces))
           | _ => .error (.braviaApiError "API returned unexpected response format for getNetworkSettings"))

/-- System.get_remote_access_status. The final error path formats
response["currentValue"] on the whole response list, which raises TypeError
before the BraviaApiError is constructed. -/
def System.get_remote_access_status (st : ClientState) (fetch : Except PyError InterfaceInfo)
    (r : Except HttpErr JValue) : Except PyError Bool :=
  withClient st fetch
    (match r with
     | .error err => .error (.braviaApiError (get_error_message err.error_code err.msg))
     | .ok resp =>
         match pyLen resp with
         | .error e => .error e
         | .ok n =>
             if !(n == 1) then
               .error (.braviaApiError "API returned unexpected getRemoteDeviceSettings response format")
             else
               match pyGetItemNat resp 0 with
               | .error e => .error e
               | .ok first =>
                   match pyGetItemStr first "currentValue" with
                   | .error e => .error e
                   | .ok cv =>
                       if jEqStr cv "on" then .ok true
                       else if jEqStr cv "false" then .ok false
                       else
                         match pyGetItemStr resp "currentValue" with
                         | .error e => .error e
                         | .ok bad =>
                             .error (.braviaApiError ("API returned unexpected getRemoteDeviceSettings response '" ++ pyFormat bad ++ "'")))

/-- Decidable equality of outcomes with decidable components. -/
instance {ε α : Type} [DecidableEq ε] [DecidableEq α] : DecidableEq (Except ε α) := fun x y =>
  match x, y with
  | .ok a, .ok b =>
      if h : a = b then isTrue (by rw [h]) else isFalse (by intro hh; cases hh; exact h rfl)
  | .error a, .error b =>
      if h : a = b then isTrue (by rw [h]) else isFalse (by intro hh; cases hh; exact h rfl)
  | .ok _, .error _ => isFalse (by intro hh; cases hh)
  | .error _, .ok _ => isFalse (by intro hh; cases hh)

/-- Which class of the error hierarchy an exception belongs to: two
exceptions are of the same public type exactly when their families agree. -/
def errorFamily : PyError → Nat
  | .typeError _ => 0
  | .valueError _ => 1
  | .keyError _ => 2
  | .indexError => 3
  | .attributeError => 4
  | .httpError _ _ => 5
  | .apiError _ => 6
  | .braviaApiError _ => 7
  | .braviaInternalError _ => 8
  | .invalidVersion _ => 9

/-- The device arguments Audio.set_volume accepts: None, SPEAKERS or
HEADPHONES. -/
def deviceArgOk (d : PyVal) : Bool :=
  d == PyVal.none || d == PyVal.device .SPEAKERS || d == PyVal.device .HEADPHONES

/-- The wire name an accepted device argument serializes to. -/
def wireTarget (d : PyVal) : String :=
  match d with
  | .device .SPEAKERS => "speaker"
  | .device .HEADPHONES => "headphone"
  | _ => ""

/-- The volume arguments that pass the type and format checks of
Audio.set_volume. -/
def volumeArgOk (v : PyVal) : Bool :=
  match v with
  | .int _ => true
  | .str s => volFormatOk s
  | _ => false

/-- A fixed interface-information oracle value for closed statements whose
client is already initialized (the gate never consults it then). -/
def noFetch : Except PyError InterfaceInfo :=
  .ok { product_category := .null, product_name := .null, model_name := .null,
        server_name := .null, interface_version := .null }

/-- The first-use gate diverges: with the initialized flag still unset, the
gate and the interface fetch re-enter each other unboundedly, consuming fuel
without ever producing an outcome or sending a request. -/
lemma uninitedGateDiverges (fuel : Nat) :
    ∀ r, initF fuel ⟨false⟩ r = none ∧ getIfaceF fuel ⟨false⟩ r = none := by
  induction fuel with
  | zero => intro r; exact ⟨rfl, rfl⟩
  | succ n ih =>
      intro r
      constructor
      · simp [initF, (ih r).2]
      · simp [getIfaceF, (ih r).1]

/-- C1: the gate never completes on a fresh client. BraviaClient.initialize
calls System.get_interface_information, whose first statement calls
initialize back while the flag is still unset (it is set only after the fetch
returns), so for every recursion budget both calls only run out of fuel: the
version comparison never runs, no ApiError and no success is ever produced,
and the client is never marked initialized. -/
theorem init_never_completes (fuel : Nat) (r : Except HttpErr JValue) :
    initF fuel ⟨false⟩ r = none ∧ getIfaceF fuel ⟨false⟩ r = none :=
  uninitedGateDiverges fuel r

/-- C2: the at-most-once contract exists only as the initialized fast path:
a gate call on an already initialized client returns at once, but a fresh
client's first-use check re-enters itself for every recursion budget and
never succeeds, so the post-success state the claim quantifies over is never
reached by the program. -/
theorem gate_fast_path_only (fuel : Nat) (r : Except HttpErr JValue) :
    initF (fuel + 1) ⟨true⟩ r = some (.ok ⟨true⟩) ∧
    initF fuel ⟨false⟩ r = none :=
  ⟨by simp [initF], (uninitedGateDiverges fuel r).1⟩


/-- C3 counterexample: a device error with code ILLEGAL_ARGUMENT makes
Audio.get_sound_settings return None rather than raise a typed error. -/
theorem sound_settings_error_code_graceful :
    (Audio.get_sound_settings ⟨true⟩ noFetch
        (.error { error_code := 3, msg := "Illegal argument" })).fst = .ok none := rfl

/-- C3 amended: when the device returns an error code the three operations
raise BraviaApiError, except each operation's gracefully handled code
(ILLEGAL_ARGUMENT in get_sound_settings and get_network_settings,
ILLEGAL_STATE in get_current_time), which returns None instead. -/
theorem error_code_typed_or_graceful (e : HttpErr) :
    (Audio.get_sound_settings ⟨true⟩ noFetch (.error e)).fst =
      (if e.error_code = 3 then .ok none
       else .error (.braviaApiError ("An unexpected error occurred: " ++ e.msg))) ∧
    System.get_current_time ⟨true⟩ noFetch (.error e) =
      (if e.error_code = 7 then .ok none
       else .error (.braviaApiError (get_error_message e.error_code e.msg))) ∧
    System.get_network_settings ⟨true⟩ noFetch PyVal.none (.error e) =
      (if e.error_code = 3 then .ok none
       else .error (.braviaApiError (get_error_message e.error_code e.msg))) := by
  refine ⟨?_, ?_, ?_⟩
  · by_cases h : e.error_code = 3 <;>
      simp [Audio.get_sound_settings, BraviaClient.init, ErrorCode.ILLEGAL_ARGUMENT, h]
  · by_cases h : e.error_code = 7 <;>
      simp [System.get_current_time, withClient, BraviaClient.init, ApiErrors.ILLEGAL_STATE, h]
  · by_cases h : e.error_code = 3 <;>
      simp [System.get_network_settings, withClient, BraviaClient.init,
            ApiErrors.ILLEGAL_ARGUMENT, h, pyValTruthy, PyVal.isStr]

/-- C4 counterexample: Audio.get_volume_information silently discards a
response entry whose target string is outside its translation table,
returning an empty list rather than raising a typed error. -/
theorem volume_info_discards_unknown_target :
    Audio.get_volume_information ⟨true⟩ noFetch
        (.ok (.list [.obj [("target", .str "banana")]])) = .ok [] := rfl

/-- C4 amended: get_sound_settings and get_led_status raise BraviaApiError on
an enumeration string outside their translation tables, while
get_volume_information skips entries whose target is not in its table. -/
theorem enum_translation_behavior :
    (∀ cv : JValue, output_modes cv = AudioOutputs.UNKNOWN →
        (Audio.get_sound_settings ⟨true⟩ noFetch
            (.ok (.list [.obj [("currentValue", cv)]]))).fst =
          .error (.braviaApiError ("API returned unexpected audio output '" ++ pyFormat cv ++ "'"))) ∧
    (∀ mv : JValue, valid_modes mv = LedMode.UNKNOWN →
        System.get_led_status ⟨true⟩ noFetch (.ok (.obj [("mode", mv)])) =
          .error (.braviaApiError ("API returned unexpected LED mode '" ++ pyFormat mv ++ "'"))) ∧
    (∀ tv : JValue, valid_devices tv = none →
        Audio.get_volume_information ⟨true⟩ noFetch
            (.ok (.list [.obj [("target", tv)]])) = .ok []) := by
  refine ⟨?_, ?_, ?_⟩
  · intro cv h
    simp [Audio.get_sound_settings, BraviaClient.init, pyDictGet, List.lookup, h]
  · intro mv h
    simp [System.get_led_status, withClient, BraviaClient.init, pyContains,
          pyDictGet, List.lookup, h]
  · intro tv h
    simp [Audio.get_volume_information, withClient, BraviaClient.init,
          volumeInfoStep, pyDictGet, List.lookup, List.foldlM, h]

/-- Witness for C4 amended at the unrecognized string banana. -/
theorem enum_translation_behavior_witness :
    output_modes (.str "banana") = AudioOutputs.UNKNOWN ∧
    valid_modes (.str "banana") = LedMode.UNKNOWN ∧
    valid_devices (.str "banana") = none ∧
    (Audio.get_sound_settings ⟨true⟩ noFetch
        (.ok (.list [.obj [("currentValue", .str "banana")]]))).fst =
      .error (.braviaApiError ("API returned unexpected audio output '" ++ pyFormat (.str "banana") ++ "'")) ∧
    System.get_led_status ⟨true⟩ noFetch (.ok (.obj [("mode", .str "banana")])) =
      .error (.braviaApiError ("API returned unexpected LED mode '" ++ pyFormat (.str "banana") ++ "'")) ∧
    Audio.get_volume_information ⟨true⟩ noFetch
        (.ok (.list [.obj [("target", .str "banana")]])) = .ok [] :=
  ⟨rfl, rfl, rfl,
   enum_translation_behavior.1 (.str "banana") rfl,
   enum_translation_behavior.2.1 (.str "banana") rfl,
   enum_translation_behavior.2.2 (.str "banana") rfl⟩

/-- C5 counterexample: a device-reported error and an unexpected response
shape surface at the public interface as errors of the same type,
BraviaApiError, so the two categories are not distinguished by type. -/
theorem device_and_shape_errors_share_type :
    System.get_power_status ⟨true⟩ noFetch (.error { error_code := 12, msg := "boom" }) =
      .error (.braviaApiError (get_error_message 12 "boom")) ∧
    System.get_power_status ⟨true⟩ noFetch (.ok (.obj [("status", .str "weird")])) =
      .error (.braviaApiError ("Unexpected getPowerStatus response '" ++ pyFormat (.str "weird") ++ "'")) ∧
    errorFamily (.braviaApiError (get_error_message 12 "boom")) =
      errorFamily (.braviaApiError ("Unexpected getPowerStatus response '" ++ pyFormat (.str "weird") ++ "'")) :=
  ⟨rfl, rfl, rfl⟩

/-- C5 amended: the hierarchy's types are distinct (transport HttpError is a
different family from BraviaApiError), but at the public interface both
device-reported errors and unexpected response shapes surface as
BraviaApiError, distinguished only by message. -/
theorem public_error_surface (e : HttpErr) :
    System.set_power_status ⟨true⟩ noFetch (.bool true) (.error e) =
      .error (.braviaApiError (get_error_message e.error_code e.msg)) ∧
    System.get_power_status ⟨true⟩ noFetch (.error e) =
      .error (.braviaApiError (get_error_message e.error_code e.msg)) ∧
    (Audio.get_sound_settings ⟨true⟩ noFetch (.ok (.int 5))).fst =
      .error (.braviaApiError "API returned unexpected response format for getSoundSettings") ∧
    (∀ m : String, errorFamily (.httpError e.error_code e.msg) ≠ errorFamily (.braviaApiError m)) :=
  ⟨rfl, rfl, rfl, by intro m; simp [errorFamily]⟩

/-- C6: get_power_status yields True exactly on status active, False exactly
on status standby, and BraviaApiError on every other reported status value. -/
theorem power_status_mapping (v : JValue) :
    (System.get_power_status ⟨true⟩ noFetch (.ok (.obj [("status", v)])) = .ok true ↔
      v = .str "active") ∧
    (System.get_power_status ⟨true⟩ noFetch (.ok (.obj [("status", v)])) = .ok false ↔
      v = .str "standby") ∧
    (v ≠ .str "active" → v ≠ .str "standby" →
      System.get_power_status ⟨true⟩ noFetch (.ok (.obj [("status", v)])) =
        .error (.braviaApiError ("Unexpected getPowerStatus response '" ++ pyFormat v ++ "'"))) := by
  have base : System.get_power_status ⟨true⟩ noFetch (.ok (.obj [("status", v)])) =
      (if jEqStr v "standby" then .ok false
       else if jEqStr v "active" then .ok true
       else .error (.braviaApiError ("Unexpected getPowerStatus response '" ++ pyFormat v ++ "'"))) := by
    simp [System.get_power_status, withClient, BraviaClient.init, pyGetItemStr, List.lookup]
  refine ⟨?_, ?_, ?_⟩
  · rw [base]
    rcases v with _ | b | n | s | l | o <;> simp [jEqStr]
    by_cases hs : s = "standby" <;> by_cases ha : s = "active" <;> simp [hs, ha]
  · rw [base]
    rcases v with _ | b | n | s | l | o <;> simp [jEqStr]
    by_cases hs : s = "standby" <;> by_cases ha : s = "active" <;> simp [hs, ha]
  · intro ha hs
    rw [base]
    rcases v with _ | b | n | s | l | o
    case str =>
      have ha2 : s ≠ "active" := fun h => ha (by rw [h])
      have hs2 : s ≠ "standby" := fun h => hs (by rw [h])
      simp [jEqStr, ha2, hs2]
    all_goals simp [jEqStr]

/-- Witness for C6 at a status value outside the mapping. -/
theorem power_status_mapping_witness :
    JValue.str "on" ≠ JValue.str "active" ∧ JValue.str "on" ≠ JValue.str "standby" ∧
    System.get_power_status ⟨true⟩ noFetch (.ok (.obj [("status", .str "on")])) =
      .error (.braviaApiError ("Unexpected getPowerStatus response '" ++ pyFormat (.str "on") ++ "'")) :=
  ⟨by simp, by simp,
   (power_status_mapping (.str "on")).2.2 (by simp) (by simp)⟩

/-- C8: an empty-list device response passes the shape checks of
get_sound_settings and of get_network_settings with a named interface, and
the unguarded first-element access escapes as an IndexError, which is not a
BraviaApiError. -/
theorem empty_response_index_error :
    (Audio.get_sound_settings ⟨true⟩ noFetch (.ok (.list []))).fst = .error .indexError ∧
    System.get_network_settings ⟨true⟩ noFetch (.str "eth0") (.ok (.list [])) =
      .error .indexError ∧
    (∀ m : String, PyError.indexError ≠ PyError.braviaApiError m) :=
  ⟨rfl, rfl, by intro m h; cases h⟩

/-- C10: get_remote_access_status yields True only on currentValue on, False
only on the string false, and the value off falls into the error path (where
formatting the message raises TypeError), so it never yields a boolean. -/
theorem remote_access_status_mapping (v : JValue) :
    (System.get_remote_access_status ⟨true⟩ noFetch
        (.ok (.list [.obj [("currentValue", v)]])) = .ok true ↔ v = .str "on") ∧
    (System.get_remote_access_status ⟨true⟩ noFetch
        (.ok (.list [.obj [("currentValue", v)]])) = .ok false ↔ v = .str "false") ∧
    System.get_remote_access_status ⟨true⟩ noFetch
        (.ok (.list [.obj [("currentValue", .str "off")]])) =
      .error (.typeError "list indices must be integers or slices, not str") := by
  have base : System.get_remote_access_status ⟨true⟩ noFetch
      (.ok (.list [.obj [("currentValue", v)]])) =
      (if jEqStr v "on" then .ok true
       else if jEqStr v "false" then .ok false
       else .error (.typeError "list indices must be integers or slices, not str")) := by
    simp [System.get_remote_access_status, withClient, BraviaClient.init, pyLen,
          pyGetItemNat, pyGetItemStr, List.lookup]
  refine ⟨?_, ?_, rfl⟩
  · rw [base]
    rcases v with _ | b | n | s | l | o <;> simp [jEqStr]
    by_cases ho : s = "on" <;> by_cases hf : s = "false" <;> simp [ho, hf]
  · rw [base]
    rcases v with _ | b | n | s | l | o <;> simp [jEqStr]
    by_cases ho : s = "on" <;> by_cases hf : s = "false" <;> simp [ho, hf]

/-- C7: set_volume raises TypeError on a volume that is neither int nor str,
ValueError on a str volume outside the sign-digits format, ValueError on
VolumeDevice.UNKNOWN, TypeError on a device that is neither None nor a
VolumeDevice, and on a valid call sends volume as str(volume), ui as on/off,
and target as the empty string, speaker or headphone. -/
theorem set_volume_contract :
    (∀ volume show_ui device r, device.isDevice = false → device ≠ PyVal.none →
        Audio.set_volume ⟨true⟩ noFetch volume show_ui device r =
          { result := .error (.typeError "device must be a VolumeDevice enum type or None"),
            sent := none }) ∧
    (∀ volume show_ui r,
        Audio.set_volume ⟨true⟩ noFetch volume show_ui (.device .UNKNOWN) r =
          { result := .error (.valueError "device cannot be VolumeDevice.UNKNOWN"),
            sent := none }) ∧
    (∀ volume show_ui device r, deviceArgOk device = true →
        volume.isInt = false → volume.isStr = false →
        Audio.set_volume ⟨true⟩ noFetch volume show_ui device r =
          { result := .error (.typeError "volume must be an int or string"), sent := none }) ∧
    (∀ s show_ui device r, deviceArgOk device = true → volFormatOk s = false →
        Audio.set_volume ⟨true⟩ noFetch (.str s) show_ui device r =
          { result := .error (.valueError "volume must be in the format 1, +1, or -1"),
            sent := none }) ∧
    (∀ volume device b x, deviceArgOk device = true → volumeArgOk volume = true →
        Audio.set_volume ⟨true⟩ noFetch volume (.bool b) device (.ok x) =
          { result := .ok (),
            sent := some { target := wireTarget device, volume := pyStr volume,
                           ui := if b then "on" else "off" } }) := by
  have deviceArgOk_elim : ∀ device : PyVal, deviceArgOk device = true →
      device = PyVal.none ∨ device = PyVal.device .SPEAKERS ∨
        device = PyVal.device .HEADPHONES := by
    intro device h
    rcases device with _ | b | n | s | d | _ <;> simp_all [deviceArgOk]
  refine ⟨?_, ?_, ?_, ?_, ?_⟩
  · intro volume show_ui device r hdev hnone
    rcases device with _ | b | n | s | d | _ <;>
      simp_all [Audio.set_volume, BraviaClient.init, PyVal.isDevice]
  · intro volume show_ui r
    simp [Audio.set_volume, BraviaClient.init, PyVal.isDevice]
  · intro volume show_ui device r hdev hint hstr
    rcases deviceArgOk_elim device hdev with rfl | rfl | rfl <;>
      rcases volume with _ | b2 | n2 | s2 | d2 | _ <;>
        simp_all [Audio.set_volume, BraviaClient.init, PyVal.isDevice, PyVal.isInt, PyVal.isStr]
  · intro s show_ui device r hdev hfmt
    rcases deviceArgOk_elim device hdev with rfl | rfl | rfl <;>
      simp_all [Audio.set_volume, BraviaClient.init, PyVal.isDevice, PyVal.isInt, PyVal.isStr]
  · intro volume device b x hdev hvol
    rcases deviceArgOk_elim device hdev with rfl | rfl | rfl <;>
      rcases volume with _ | b3 | n3 | s3 | d3 | _ <;>
        simp_all [Audio.set_volume, BraviaClient.init, PyVal.isDevice, PyVal.isInt,
                  PyVal.isStr, PyVal.isBool, pyValTruthy, pyStr, volumeArgOk, wireTarget]

/-- Witness for C7: an int device argument raises TypeError; a valid call
with volume 25 to the speakers sends target speaker, volume 25, ui on. -/
theorem set_volume_contract_witness :
    PyVal.isDevice (.int 7) = false ∧ PyVal.int 7 ≠ PyVal.none ∧
    Audio.set_volume ⟨true⟩ noFetch (.int 10) (.bool true) (.int 7) (.ok .null) =
      { result := .error (.typeError "device must be a VolumeDevice enum type or None"),
        sent := none } ∧
    deviceArgOk (.device .SPEAKERS) = true ∧ volumeArgOk (.int 25) = true ∧
    Audio.set_volume ⟨true⟩ noFetch (.int 25) (.bool true) (.device .SPEAKERS) (.ok .null) =
      { result := .ok (),
        sent := some { target := wireTarget (.device .SPEAKERS), volume := pyStr (.int 25),
                       ui := if true then "on" else "off" } } :=
  ⟨rfl, by simp,
   set_volume_contract.1 (.int 10) (.bool true) (.int 7) (.ok .null) rfl (by simp),
   rfl, rfl,
   set_volume_contract.2.2.2.2 (.int 25) (.device .SPEAKERS) true .null rfl rfl⟩

/-- C9: for a negative int, increase_volume and decrease_volume build a
relative-volume string with two sign characters, which fails the format
check: ValueError is raised and no setAudioVolume request is sent. -/
theorem negative_relative_volume_rejected (n : Int) (h : n < 0) :
    Audio.increase_volume ⟨true⟩ noFetch (.int n) (.bool true) PyVal.none (.ok .null) =
      { result := .error (.valueError "volume must be in the format 1, +1, or -1"),
        sent := none } ∧
    Audio.decrease_volume ⟨true⟩ noFetch (.int n) (.bool true) PyVal.none (.ok .null) =
      { result := .error (.valueError "volume must be in the format 1, +1, or -1"),
        sent := none } := by
  obtain ⟨m, rfl⟩ : ∃ m : Nat, n = Int.negSucc m := by
    cases n with
    | ofNat k => exact absurd h (by exact Int.not_lt.mpr (Int.ofNat_nonneg k))
    | negSucc m => exact ⟨m, rfl⟩
  have hdig : pyIsDigit '-' = false := by decide
  have hcore : ∀ ds : List Char,
      (!(stripTrailingNewline ('-' :: ds)).isEmpty &&
        (stripTrailingNewline ('-' :: ds)).all pyIsDigit) = false := by
    intro ds
    unfold stripTrailingNewline
    cases ds with
    | nil => decide
    | cons a as =>
        split
        · rw [show ('-' :: a :: as).dropLast = '-' :: (a :: as).dropLast from rfl]
          simp [hdig]
        · simp [hdig]
  have hplus : volFormatOk ("+" ++ pyStr (.int (Int.negSucc m))) = false := by
    have hd : ("+" ++ pyStr (.int (Int.negSucc m))).data =
        '+' :: '-' :: (Nat.repr (m + 1)).data := by
      show ("+" ++ ("-" ++ Nat.repr (m + 1))).data = _
      rw [String.data_append, String.data_append]
      rfl
    unfold volFormatOk
    rw [hd]
    simp [hcore]
  have hminus : volFormatOk ("-" ++ pyStr (.int (Int.negSucc m))) = false := by
    have hd : ("-" ++ pyStr (.int (Int.negSucc m))).data =
        '-' :: '-' :: (Nat.repr (m + 1)).data := by
      show ("-" ++ ("-" ++ Nat.repr (m + 1))).data = _
      rw [String.data_append, String.data_append]
      rfl
    unfold volFormatOk
    rw [hd]
    simp [hcore]
  constructor
  · simp [Audio.increase_volume, Audio.set_volume, BraviaClient.init, PyVal.isInt,
          PyVal.isStr, PyVal.isDevice, hplus]
  · simp [Audio.decrease_volume, Audio.set_volume, BraviaClient.init, PyVal.isInt,
          PyVal.isStr, PyVal.isDevice, hminus]

/-- Witness for C9 at the concrete negative amount minus two. -/
theorem negative_relative_volume_rejected_witness :
    ((-2 : Int) < 0) ∧
    Audio.increase_volume ⟨true⟩ noFetch (.int (-2)) (.bool true) PyVal.none (.ok .null) =
      { result := .error (.valueError "volume must be in the format 1, +1, or -1"),
        sent := none } :=
  ⟨by decide, (negative_relative_volume_rejected (-2) (by decide)).1⟩
